import Mathlib

/-
  Verification development for the scst_local loopback driver
  (src/scst_local/scst_local.c): a shallow embedding of its session
  lifecycle, AEN dispatch, task management and administrative surface,
  with theorems settling the specification claims.
-/

namespace ScstLocal

/-! ## Error and status constants

The numeric errno values are the standard Linux ones used by the source
(`-ENOENT`, `-ENOMEM`, `-EFAULT`, `-EINVAL`). -/

def ENOENT : Int := 2

def ENOMEM : Int := 12

def EFAULT : Int := 14

def EINVAL : Int := 22

/-- Modelled from the spec: the `NotSupported` result code for an AEN report
(`SCST_AEN_RES_NOT_SUPPORTED` comes from the external target-engine header,
which is not part of src/). The claims rely only on this value being distinct
from 0 (success) and from `-ENOMEM`. -/
def SCST_AEN_RES_NOT_SUPPORTED : Int := -1

/-- Modelled from the spec: the initiator-side success token returned by the
error-handler entry points (`SUCCESS` comes from the external SCSI midlayer
header, 0x2002 in Linux). The claims rely only on it being the distinguished
success token, distinct from 0 and from negative errnos. -/
def SUCCESS : Int := 0x2002

/-- Host byte `DID_BAD_TARGET` of the Linux SCSI midlayer, shifted into
`scmd->result` as `DID_BAD_TARGET << 16` by the source. -/
def DID_BAD_TARGET : Nat := 0x04

def SCSI_MLQUEUE_HOST_BUSY : Int := 0x1055

/-! ## Per-session AEN state

`Config` embeds the fields of `struct scst_local_sess` that the AEN /
lifecycle claims are about, together with the state of the session's single
work-queue slot:

* `unregistering` — the one-way latch (`sess->unregistering`);
* `aen_work_list` — the FIFO of pending AEN items, each identified by the
  numeric handle of its `struct scst_aen` (`sess->aen_work_list`, appended
  at the tail by `scst_local_report_aen`, popped at the head by
  `scst_process_aens`);
* `worker` — `some (a, cleanup)` while the dispatcher has popped item `a`
  from the list (inside `scst_process_aens`, between `list_del` and
  `scst_aen_done`) and is processing it with the given `cleanup_only` flag;
  `none` when no item is being processed;
* `cancelled` — whether `cancel_work_sync(&sess->aen_work)` has completed
  (in `scst_local_release_adapter`), after which only the cleanup-only
  drain pops items;
* `shost` — whether `sess->shost` is still set (the rescan side effect is
  issued only against a live host). -/
structure Config where
  unregistering : Bool
  aen_work_list : List Nat
  worker : Option (Nat × Bool)
  cancelled : Bool
  shost : Bool
deriving DecidableEq

/-- A freshly added session, as initialized by `__scst_local_add_adapter`:
latch clear, empty AEN list, no worker running, work not cancelled, host
registered. -/
def initSess : Config := ⟨false, [], none, false, true⟩

/-- Observable events of the AEN subsystem, recorded in traces:
`enq a` — `scst_local_report_aen` appended item `a` to the session queue;
`refused` — `scst_local_report_aen` rejected a report because the latch was
set; `latch` — `scst_local_close_session_impl` set `unregistering`;
`pop a cleanup` — `scst_process_aens` removed item `a` from the head of the
queue (with the given `cleanup_only` flag); `rescan a` — the
`scsi_scan_target` side effect was performed for item `a`; `ack a` —
`scst_aen_done` was called for item `a`; `cancel` — `cancel_work_sync`
completed. -/
inductive Ev where
  | enq (a : Nat)
  | refused
  | latch
  | pop (a : Nat) (cleanup : Bool)
  | rescan (a : Nat)
  | ack (a : Nat)
  | cancel
deriving DecidableEq

/-- Interleaved small-step semantics of the AEN subsystem of one session.
Each constructor is one atomic section of the source (the spinlocked
regions of `scst_local_report_aen`, `scst_local_close_session_impl`,
`scst_process_aens`, and the lock-free section of `scst_process_aens`
between dropping and re-taking `aen_lock`):

* `report` — the `SCST_AEN_SCSI` success path of `scst_local_report_aen`:
  under `aen_lock`, with the latch clear, append the item at the tail;
* `reportRefused` — the same function observing `sess->unregistering`
  under `aen_lock`: no enqueue;
* `close` — `scst_local_close_session_impl` setting the latch under
  `aen_lock` (a one-way transition);
* `popNormal` — the worker (`scst_aen_work_fn` → `scst_process_aens` with
  `cleanup_only = false`) taking the head item under `aen_lock`; it can
  only run while the work has not been cancelled;
* `popCleanup` — the cleanup-only drain of `scst_local_release_adapter`,
  which runs after `cancel_work_sync` and asserts the latch
  (`WARN_ON_ONCE(!sess->unregistering)`);
* `finishNormalHost` / `finishNormalNoHost` — the section of
  `scst_process_aens` outside the lock for a normally popped item: the
  rescan is issued iff the host is still registered, then the item is
  acknowledged with `scst_aen_done`;
* `finishCleanup` — the same section for a cleanup-popped item: the rescan
  is skipped (`if (cleanup_only) goto done`), the item is still
  acknowledged;
* `cancelWork` — `cancel_work_sync` completing, which requires the worker
  to be idle (it waits for in-flight work). -/
inductive Step : Config → List Ev → Config → Prop where
  | report (c : Config) (a : Nat) (hu : c.unregistering = false) :
      Step c [Ev.enq a] { c with aen_work_list := c.aen_work_list ++ [a] }
  | reportRefused (c : Config) (hu : c.unregistering = true) :
      Step c [Ev.refused] c
  | close (c : Config) :
      Step c [Ev.latch] { c with unregistering := true }
  | popNormal (c : Config) (a : Nat) (rest : List Nat)
      (hw : c.worker = none) (hq : c.aen_work_list = a :: rest)
      (hc : c.cancelled = false) :
      Step c [Ev.pop a false]
        { c with aen_work_list := rest, worker := some (a, false) }
  | popCleanup (c : Config) (a : Nat) (rest : List Nat)
      (hw : c.worker = none) (hq : c.aen_work_list = a :: rest)
      (hc : c.cancelled = true) (hu : c.unregistering = true) :
      Step c [Ev.pop a true]
        { c with aen_work_list := rest, worker := some (a, true) }
  | finishNormalHost (c : Config) (a : Nat)
      (hw : c.worker = some (a, false)) (hs : c.shost = true) :
      Step c [Ev.rescan a, Ev.ack a] { c with worker := none }
  | finishNormalNoHost (c : Config) (a : Nat)
      (hw : c.worker = some (a, false)) (hs : c.shost = false) :
      Step c [Ev.ack a] { c with worker := none }
  | finishCleanup (c : Config) (a : Nat)
      (hw : c.worker = some (a, true)) :
      Step c [Ev.ack a] { c with worker := none }
  | cancelWork (c : Config) (hw : c.worker = none) :
      Step c [Ev.cancel] { c with cancelled := true }

/-- Reflexive-transitive closure of `Step`, accumulating the emitted trace. -/
inductive Reaches : Config → List Ev → Config → Prop where
  | refl (c : Config) : Reaches c [] c
  | step (c c₁ c₂ : Config) (tr evs : List Ev)
      (h₁ : Reaches c tr c₁) (h₂ : Step c₁ evs c₂) :
      Reaches c (tr ++ evs) c₂

def evEnq : Ev → Option Nat
  | Ev.enq a => some a
  | _ => none

def evAck : Ev → Option Nat
  | Ev.ack a => some a
  | _ => none

/-- The AEN items enqueued along a trace, in order. -/
def enqueuedIds (tr : List Ev) : List Nat := tr.filterMap evEnq

/-- The AEN items acknowledged (`scst_aen_done`) along a trace, in order. -/
def ackedIds (tr : List Ev) : List Nat := tr.filterMap evAck

/-- The items currently inside the subsystem: the one held by the worker
(if any) followed by the queued ones. -/
def inFlight (c : Config) : List Nat :=
  (match c.worker with
   | none => []
   | some (a, _) => [a]) ++ c.aen_work_list

/-- Whether a trace performs no rescan side effect after the first `latch`
event (the original wording of claim C1). -/
def noRescanAfterLatch : List Ev → Bool
  | [] => true
  | Ev.latch :: tr =>
      tr.all fun e =>
        match e with
        | Ev.rescan _ => false
        | _ => true
  | _ :: tr => noRescanAfterLatch tr

/-- Claim C1 as stated: along every execution of the AEN subsystem, every
enqueued item is acknowledged exactly once (at quiescence the acknowledged
items are exactly the enqueued ones), and no rescan side effect is ever
executed after the session's unregistering latch has been set. -/
def c1Statement : Prop :=
  (∀ (tr : List Ev) (c : Config), Reaches initSess tr c →
      c.aen_work_list = [] → c.worker = none →
      ackedIds tr = enqueuedIds tr)
  ∧ (∀ (tr : List Ev) (c : Config), Reaches initSess tr c →
      noRescanAfterLatch tr = true)

/-! ## Session close (two-phase destruction, `scst_local_close_session_impl`) -/

/-- What the close operation did beyond setting the latch: nothing (second
and later calls), scheduled the removal on the dedicated worker
(`schedule_work(&sess->remove_work)`, the `async` case), or performed the
removal inline (`scst_local_remove_adapter`, the synchronous case). -/
inductive RemoveAction where
  | noAction
  | scheduledRemoval
  | inlineRemoval
deriving DecidableEq

/-- Embedding of `scst_local_close_session_impl`: under `aen_lock`, read the
latch and set it; if it was already set do nothing more, otherwise schedule
or run the destructive removal according to `async`. -/
def scst_local_close_session_impl (async : Bool) (c : Config) :
    Config × RemoveAction :=
  let unregistering := c.unregistering
  let c' : Config := { c with unregistering := true }
  if unregistering then (c', RemoveAction.noAction)
  else (c', if async then RemoveAction.scheduledRemoval
            else RemoveAction.inlineRemoval)

/-- Number of destructive removals performed (or scheduled) by a sequence of
close calls on the same session, each with its own `async` flag. -/
def closeRemovalCount (c : Config) : List Bool → Nat
  | [] => 0
  | a :: rest =>
      let r := scst_local_close_session_impl a c
      (if r.2 = RemoveAction.noAction then 0 else 1) + closeRemovalCount r.1 rest

/-! ## Command submission (`scst_local_queuecommand`) -/

inductive ScstQueueType where
  | untagged
  | simple
deriving DecidableEq

inductive ScstDataDir where
  | dataNone
  | dataRead
  | dataWrite
  | dataBidi
deriving DecidableEq

/-- Direction of the incoming midlayer command (`scmd->sc_data_direction`,
plus the bidirectional case `scsi_bidi_cmnd(scmd)`). -/
inductive HostDataDir where
  | toDevice
  | fromDevice
  | noData
  | bidirectional
deriving DecidableEq

/-- Inputs of one `scst_local_queuecommand` invocation: the session latch,
whether the engine-side allocation `scst_rx_cmd` succeeds (an external
engine call), the tagging attributes of the device, the data direction and
buffer length of the command. -/
structure QCInput where
  unregistering : Bool
  rx_cmd_ok : Bool
  tagged_supported : Bool
  simple_tags : Bool
  sc_data_direction : HostDataDir
  bufflen : Nat
deriving DecidableEq

/-- Observable outcome of one `scst_local_queuecommand` invocation. -/
structure QCOutcome where
  rx_cmd_called : Bool
  done_called : Bool
  result : Nat
  retval : Int
  engine_owns : Bool
  queue_type : Option ScstQueueType
  direction : Option ScstDataDir
  expected_len : Option Nat
deriving DecidableEq

/-- Embedding of `scst_local_queuecommand` (the modern-kernel branch of the
source: blk-mq tagging and the post-2.6.25 scatterlist path). If the
session is unregistering the command is completed immediately with
`DID_BAD_TARGET << 16` and 0 is returned, without calling `scst_rx_cmd`;
if `scst_rx_cmd` fails, `SCSI_MLQUEUE_HOST_BUSY` is returned; otherwise the
queue type and data direction are classified and the command is handed to
the engine via `scst_cmd_init_done`. -/
def scst_local_queuecommand (i : QCInput) : QCOutcome :=
  if i.unregistering then
    { rx_cmd_called := false, done_called := true,
      result := DID_BAD_TARGET <<< 16, retval := 0, engine_owns := false,
      queue_type := none, direction := none, expected_len := none }
  else if !i.rx_cmd_ok then
    { rx_cmd_called := true, done_called := false, result := 0,
      retval := SCSI_MLQUEUE_HOST_BUSY, engine_owns := false,
      queue_type := none, direction := none, expected_len := none }
  else
    let qt := if i.tagged_supported && i.simple_tags then ScstQueueType.simple
              else ScstQueueType.untagged
    let dir :=
      match i.sc_data_direction with
      | HostDataDir.bidirectional => (ScstDataDir.dataBidi, i.bufflen)
      | HostDataDir.toDevice => (ScstDataDir.dataWrite, i.bufflen)
      | HostDataDir.fromDevice => (ScstDataDir.dataRead, i.bufflen)
      | HostDataDir.noData => (ScstDataDir.dataNone, 0)
    { rx_cmd_called := true, done_called := false, result := 0, retval := 0,
      engine_owns := true, queue_type := some qt, direction := some dir.1,
      expected_len := some dir.2 }

/-! ## Task management (`scst_local_abort`, `scst_local_device_reset`,
`scst_local_target_reset`) -/

/-- The three statistics counters (`num_aborts`, `num_dev_resets`,
`num_target_resets`). -/
structure MgmtStats where
  num_aborts : Nat
  num_dev_resets : Nat
  num_target_resets : Nat
deriving DecidableEq

/-- Outcome of one task-management entry point: whether the function blocked
on the on-stack completion (`wait_for_completion_interruptible`) and the
value it returned to the midlayer. -/
structure MgmtOutcome where
  waited : Bool
  ret : Int
deriving DecidableEq

/-- Embedding of `scst_local_abort`. `submitRet` is the value returned by the
engine call `scst_rx_mgmt_fn_tag`. The source then waits on the completion
unconditionally, increments `num_aborts` unconditionally, and converts a
zero submission result into `SUCCESS`. -/
def scst_local_abort (submitRet : Int) (st : MgmtStats) :
    MgmtOutcome × MgmtStats :=
  let ret := submitRet
  -- wait_for_completion_interruptible(&dev_reset_completion)
  let waited := true
  let st' : MgmtStats := { st with num_aborts := st.num_aborts + 1 }
  let ret' := if ret = 0 then SUCCESS else ret
  (⟨waited, ret'⟩, st')

/-- Embedding of `scst_local_device_reset` (`scst_rx_mgmt_fn_lun` with
`SCST_LUN_RESET`); same control flow as `scst_local_abort` but incrementing
`num_dev_resets`. -/
def scst_local_device_reset (submitRet : Int) (st : MgmtStats) :
    MgmtOutcome × MgmtStats :=
  let ret := submitRet
  -- wait_for_completion_interruptible(&dev_reset_completion)
  let waited := true
  let st' : MgmtStats := { st with num_dev_resets := st.num_dev_resets + 1 }
  let ret' := if ret = 0 then SUCCESS else ret
  (⟨waited, ret'⟩, st')

/-- Embedding of `scst_local_target_reset` (`scst_rx_mgmt_fn_lun` with
`SCST_TARGET_RESET`); same control flow but incrementing
`num_target_resets`. -/
def scst_local_target_reset (submitRet : Int) (st : MgmtStats) :
    MgmtOutcome × MgmtStats :=
  let ret := submitRet
  -- wait_for_completion_interruptible(&dev_reset_completion)
  let waited := true
  let st' : MgmtStats :=
    { st with num_target_resets := st.num_target_resets + 1 }
  let ret' := if ret = 0 then SUCCESS else ret
  (⟨waited, ret'⟩, st')

/-- Claim C5 as stated: for every task-management operation, a non-zero
submission error is surfaced to the caller immediately, without blocking on
(waiting for) the completion signal. -/
def c5Statement : Prop :=
  ∀ (r : Int) (st : MgmtStats), r ≠ 0 →
    ((scst_local_abort r st).1.ret = r
      ∧ (scst_local_abort r st).1.waited = false)
    ∧ ((scst_local_device_reset r st).1.ret = r
      ∧ (scst_local_device_reset r st).1.waited = false)
    ∧ ((scst_local_target_reset r st).1.ret = r
      ∧ (scst_local_target_reset r st).1.waited = false)

/-! ## AEN report (`scst_local_report_aen`) -/

/-- The AEN event kind (`scst_aen_get_event_fn`): `SCST_AEN_SCSI` is the
only supported kind; everything else takes the default branch. -/
inductive AenEventFn where
  | scsi
  | other
deriving DecidableEq

/-- Embedding of `scst_local_report_aen`. `alloc_ok` is whether the
`kzalloc` of the work item succeeds; `a` is the handle of the reported AEN;
the result is `(res, session-after, work-scheduled)` where the last
component records whether `queue_work` was invoked. -/
def scst_local_report_aen (event_fn : AenEventFn) (alloc_ok : Bool)
    (a : Nat) (c : Config) : Int × Config × Bool :=
  match event_fn with
  | AenEventFn.scsi =>
      if !alloc_ok then (-ENOMEM, c, false)
      else if c.unregistering then (SCST_AEN_RES_NOT_SUPPORTED, c, false)
      else (0, { c with aen_work_list := c.aen_work_list ++ [a] }, true)
  | AenEventFn.other => (SCST_AEN_RES_NOT_SUPPORTED, c, false)

/-- Claim C7 as stated: the report operation returns `NotSupported` with the
queue unchanged and nothing scheduled in exactly two cases — the latch is
set, or the kind is unsupported — and in all other cases it enqueues the
item and returns success. -/
def c7Statement : Prop :=
  ∀ (fn : AenEventFn) (ok : Bool) (a : Nat) (c : Config),
    (((scst_local_report_aen fn ok a c).1 = SCST_AEN_RES_NOT_SUPPORTED
        ∧ (scst_local_report_aen fn ok a c).2.1 = c
        ∧ (scst_local_report_aen fn ok a c).2.2 = false)
      ↔ (c.unregistering = true ∨ fn ≠ AenEventFn.scsi))
    ∧ (c.unregistering = false → fn = AenEventFn.scsi →
        (scst_local_report_aen fn ok a c).1 = 0
        ∧ (scst_local_report_aen fn ok a c).2.1
            = { c with aen_work_list := c.aen_work_list ++ [a] }
        ∧ (scst_local_report_aen fn ok a c).2.2 = true)

/-! ## Version descriptors (`scst_local_get_scsi_transport_version`,
`scst_local_get_phys_transport_version`) -/

/-- The two per-target version-descriptor fields of
`struct scst_local_tgt` (16-bit values, 0 meaning "unset"). -/
structure TgtVersions where
  scsi_transport_version : Nat
  phys_transport_version : Nat
deriving DecidableEq

/-- Embedding of `scst_local_get_scsi_transport_version`: falls back to the
hard-coded SAS value 0x0BE0 when the stored field is zero. -/
def scst_local_get_scsi_transport_version (t : TgtVersions) : Nat :=
  if t.scsi_transport_version = 0 then 0x0BE0
  else t.scsi_transport_version

/-- Embedding of `scst_local_get_phys_transport_version`: returns the stored
field unchanged. -/
def scst_local_get_phys_transport_version (t : TgtVersions) : Nat :=
  t.phys_transport_version

/-- Claim C9 as stated: each of the two getters, when its stored field is
zero, reports a built-in default constant to the engine — 0x0BE0 for the
SCSI transport version, and likewise some hard-coded default (a constant
distinct from the unset sentinel 0) for the phys transport version. -/
def c9Statement : Prop :=
  (∀ t : TgtVersions, t.scsi_transport_version = 0 →
      scst_local_get_scsi_transport_version t = 0x0BE0)
  ∧ (∃ c : Nat, c ≠ 0 ∧ ∀ t : TgtVersions, t.phys_transport_version = 0 →
      scst_local_get_phys_transport_version t = c)

/-! ## Registry and administrative surface

`GlobalState` embeds the module-wide state: the exit reader/writer gate
(`scst_local_exit_rwsem`, represented by whether the writer is held — a
reader `down_read_trylock` fails exactly then) and the target list
(`scst_local_tgts_list`, protected by `scst_local_mutex`). -/

structure LocalSess where
  initiator_name : String
  aen : Config
deriving DecidableEq

structure LocalTgt where
  name : String
  sessions : List LocalSess
deriving DecidableEq

structure GlobalState where
  writerHeld : Bool
  tgts : List LocalTgt
deriving DecidableEq

/-- ASCII lower-casing of a code point, as `strcasecmp` does. -/
def lowerByte (n : Nat) : Nat := if 65 ≤ n ∧ n ≤ 90 then n + 32 else n

/-- Case-insensitive string comparison (the source's `strcasecmp(x, y) == 0`). -/
def eqIgnoreCase (x y : String) : Bool :=
  (x.data.map fun ch => lowerByte ch.toNat)
    == (y.data.map fun ch => lowerByte ch.toNat)

def findTgtByName : List LocalTgt → String → Option LocalTgt
  | [], _ => none
  | t :: rest, n => if t.name = n then some t else findTgtByName rest n

def findSessByName : List LocalSess → String → Option LocalSess
  | [], _ => none
  | s :: rest, n =>
      if s.initiator_name = n then some s else findSessByName rest n

def removeTgtByName : List LocalTgt → String → List LocalTgt
  | [], _ => []
  | t :: rest, n => if t.name = n then rest else t :: removeTgtByName rest n

def updateTgtByName (g : GlobalState) (n : String) (t' : LocalTgt) :
    GlobalState :=
  { g with tgts := g.tgts.map fun t => if t.name = n then t' else t }

/-- Embedding of `__scst_local_add_adapter`: allocates a session, registers
it with the engine and as a device, and appends it at the tail of the
target's session list. `ok` abstracts the external failure modes (kzalloc,
`scst_register_session`, `device_register`, `sysfs_create_link`), all calls
into collaborators outside src/. -/
def __scst_local_add_adapter (ok : Bool) (initiator_name : String)
    (t : LocalTgt) : Int × LocalTgt :=
  if ok then
    (0, { t with sessions := t.sessions ++ [⟨initiator_name, initSess⟩] })
  else (-ENOMEM, t)

/-- The `del_session` action on a target's session list: find the first
session with the given name and run `scst_local_close_session_impl` on it
synchronously; if its latch was clear the inline removal
(`scst_local_remove_adapter`) unlinks it, otherwise the session is left to
the already-scheduled asynchronous removal. -/
def delSessionList : List LocalSess → String → List LocalSess
  | [], _ => []
  | s :: rest, n =>
      if s.initiator_name = n then
        let r := scst_local_close_session_impl false s.aen
        if r.2 = RemoveAction.noAction then { s with aen := r.1 } :: rest
        else rest
      else s :: delSessionList rest n

/-- Embedding of `scst_local_add_target`: allocate the target, register it
with the engine (`scst_register_target`, whose failure — e.g. on a clashing
name — is abstracted by `reg_ok`), and append it to the registry under the
mutex. -/
def scst_local_add_target (alloc_ok reg_ok : Bool) (target_name : String)
    (g : GlobalState) : Int × GlobalState :=
  if !alloc_ok then (-ENOMEM, g)
  else if !reg_ok then (-EFAULT, g)
  else (0, { g with tgts := g.tgts ++ [⟨target_name, []⟩] })

/-- Embedding of `__scst_local_remove_target`: closes every owned session
synchronously (their two-phase teardown completes inline) and then unlinks,
unregisters and frees the target; in this registry model dropping the
target subsumes the per-session teardown. -/
def __scst_local_remove_target (target_name : String) (g : GlobalState) :
    GlobalState :=
  { g with tgts := removeTgtByName g.tgts target_name }

/-- The session-creation loop of `scst_local_sysfs_add_target` over the
parsed `session_name` parameters (lexing itself is done by external scst
core helpers); an empty name is rejected with `-EINVAL`, and the first
failure aborts the loop. -/
def addSessionsLoop (adapter_ok : Bool) (names : List String)
    (t : LocalTgt) : Int × LocalTgt :=
  match names with
  | [] => (0, t)
  | n :: rest =>
      if n = "" then (-EINVAL, t)
      else
        let r := __scst_local_add_adapter adapter_ok n t
        if r.1 = 0 then addSessionsLoop adapter_ok rest r.2 else r

/-- Embedding of `scst_local_sysfs_add_target`: try the exit gate as a
reader (fail with `-ENOENT` if the shutdown writer holds it), create the
target, then create each requested session; on a session failure the whole
target is removed again. -/
def scst_local_sysfs_add_target (alloc_ok reg_ok adapter_ok : Bool)
    (target_name : String) (session_names : List String) (g : GlobalState) :
    Int × GlobalState :=
  if g.writerHeld then (-ENOENT, g)
  else
    let r := scst_local_add_target alloc_ok reg_ok target_name g
    if r.1 ≠ 0 then r
    else
      match findTgtByName r.2.tgts target_name with
      | none => r
      | some t =>
          let r2 := addSessionsLoop adapter_ok session_names t
          if r2.1 = 0 then (0, updateTgtByName r.2 target_name r2.2)
          else
            (r2.1, __scst_local_remove_target target_name
              (updateTgtByName r.2 target_name r2.2))

/-- Embedding of `scst_local_sysfs_del_target`: try the exit gate as a
reader, then remove the named target under the registry mutex, failing with
`-ENOENT` if it is absent. -/
def scst_local_sysfs_del_target (target_name : String) (g : GlobalState) :
    Int × GlobalState :=
  if g.writerHeld then (-ENOENT, g)
  else if (findTgtByName g.tgts target_name).isSome then
    (0, __scst_local_remove_target target_name g)
  else (-ENOENT, g)

/-- Embedding of `scst_local_sysfs_mgmt_cmd` over already-lexed tokens
(`scst_get_next_lexem` is external scst-core code): try the exit gate as a
reader; require a target name and locate the target; require a session
name; then dispatch on the command word with `strcasecmp` — `add_session`
runs `__scst_local_add_adapter`, `del_session` locates the session and
closes it synchronously, and any other command word falls through both
comparisons, leaving `res = 0`. -/
def scst_local_sysfs_mgmt_cmd (adapter_ok : Bool)
    (command target_name session_name : String) (g : GlobalState) :
    Int × GlobalState :=
  if g.writerHeld then (-ENOENT, g)
  else if target_name = "" then (-EINVAL, g)
  else
    match findTgtByName g.tgts target_name with
    | none => (-EINVAL, g)
    | some t =>
        if session_name = "" then (-EINVAL, g)
        else if eqIgnoreCase "add_session" command then
          let r := __scst_local_add_adapter adapter_ok session_name t
          (r.1, updateTgtByName g target_name r.2)
        else if eqIgnoreCase "del_session" command then
          match findSessByName t.sessions session_name with
          | none => (-EINVAL, g)
          | some _ =>
              (0, updateTgtByName g target_name
                { t with sessions := delSessionList t.sessions session_name })
        else (0, g)

/-- Embedding of `scst_local_exit`: take the exit gate as a writer (after
which every reader `trylock` fails), remove every target under the registry
mutex (cascading synchronous session teardown), destroy the AEN workqueue
and unregister the driver infrastructure (external calls), and finally
release the writer ("to make lockdep happy"). -/
def scst_local_exit (g : GlobalState) : GlobalState :=
  let g₁ : GlobalState := { g with writerHeld := true }
  let g₂ : GlobalState := { g₁ with tgts := [] }
  { g₂ with writerHeld := false }

/-- Claim C8 as stated: every administrative operation first tries the exit
gate as a reader and fails immediately when the shutdown writer holds it;
and after `shutdown()` returns the registry is empty and no subsequent
add-target or add-session call succeeds — all return the shutting-down
error (`-ENOENT`). -/
def c8Statement : Prop :=
  (∀ (aOk rOk adOk : Bool) (name : String) (snames : List String)
      (g : GlobalState), g.writerHeld = true →
      scst_local_sysfs_add_target aOk rOk adOk name snames g = (-ENOENT, g))
  ∧ (∀ (name : String) (g : GlobalState), g.writerHeld = true →
      scst_local_sysfs_del_target name g = (-ENOENT, g))
  ∧ (∀ (adOk : Bool) (cmd tname sname : String) (g : GlobalState),
      g.writerHeld = true →
      scst_local_sysfs_mgmt_cmd adOk cmd tname sname g = (-ENOENT, g))
  ∧ (∀ g : GlobalState,
      (scst_local_exit g).tgts = []
      ∧ (∀ (aOk rOk adOk : Bool) (name : String) (snames : List String),
          (scst_local_sysfs_add_target aOk rOk adOk name snames
            (scst_local_exit g)).1 = -ENOENT)
      ∧ (∀ (adOk : Bool) (tname sname : String),
          (scst_local_sysfs_mgmt_cmd adOk "add_session" tname sname
            (scst_local_exit g)).1 = -ENOENT))

/-! ## Theorems -/

/-- Accounting invariant of the AEN subsystem: along any execution, the
acknowledged items followed by the items still inside the subsystem are
exactly the initially present items followed by the enqueued ones, in
order. -/
theorem aen_accounting (c₀ : Config) (tr : List Ev) (c : Config)
    (h : Reaches c₀ tr c) :
    ackedIds tr ++ inFlight c = inFlight c₀ ++ enqueuedIds tr := by
  induction h with
  | refl => simp [enqueuedIds, ackedIds]
  | step c₁ c₂ tr evs h₁ h₂ ih =>
      cases h₂ with
      | report a hu =>
          have h' := congrArg (fun l => l ++ [a]) ih
          simp only [List.append_assoc] at h'
          simpa [enqueuedIds, ackedIds, inFlight, List.filterMap_append,
            evEnq, evAck, List.append_assoc] using h'
      | reportRefused hu =>
          simpa [enqueuedIds, ackedIds, List.filterMap_append, evEnq, evAck]
            using ih
      | close =>
          simpa [enqueuedIds, ackedIds, inFlight, List.filterMap_append,
            evEnq, evAck] using ih
      | popNormal a rest hw hq hc =>
          simp only [inFlight, hw, hq] at ih
          simpa [enqueuedIds, ackedIds, inFlight, List.filterMap_append,
            evEnq, evAck] using ih
      | popCleanup a rest hw hq hc hu =>
          simp only [inFlight, hw, hq] at ih
          simpa [enqueuedIds, ackedIds, inFlight, List.filterMap_append,
            evEnq, evAck] using ih
      | finishNormalHost a hw hs =>
          simp only [inFlight, hw] at ih
          simpa [enqueuedIds, ackedIds, inFlight, List.filterMap_append,
            evEnq, evAck, List.append_assoc] using ih
      | finishNormalNoHost a hw hs =>
          simp only [inFlight, hw] at ih
          simpa [enqueuedIds, ackedIds, inFlight, List.filterMap_append,
            evEnq, evAck, List.append_assoc] using ih
      | finishCleanup a hw =>
          simp only [inFlight, hw] at ih
          simpa [enqueuedIds, ackedIds, inFlight, List.filterMap_append,
            evEnq, evAck, List.append_assoc] using ih
      | cancelWork hw =>
          simpa [enqueuedIds, ackedIds, inFlight, List.filterMap_append,
            evEnq, evAck] using ih

/-- C1 (amended). Every AEN work item enqueued on a session is acknowledged
to the engine exactly once: when the subsystem is quiescent (queue empty,
worker idle) the acknowledged items are exactly the enqueued ones, in
order. Moreover no item is ever enqueued once the unregistering latch is
set, the latch is one-way, and a rescan side effect is only ever performed
for an item that the normal (non-cleanup) dispatcher pass was already
processing — the cleanup-only drain acknowledges without rescanning. (The
original claim's stronger guarantee, that no rescan at all happens after
the latch is set, fails: an item popped by the normal pass before the latch
was set may still be rescanned afterwards; see the counterexample.) -/
theorem c1_aen_ack_exactly_once :
    (∀ (tr : List Ev) (c : Config), Reaches initSess tr c →
        c.aen_work_list = [] → c.worker = none →
        ackedIds tr = enqueuedIds tr)
    ∧ (∀ (c : Config) (evs : List Ev) (c' : Config), Step c evs c' →
        c.unregistering = true → ∀ a : Nat, Ev.enq a ∉ evs)
    ∧ (∀ (c : Config) (evs : List Ev) (c' : Config) (a : Nat),
        Step c evs c' → Ev.rescan a ∈ evs → c.worker = some (a, false))
    ∧ (∀ (c : Config) (evs : List Ev) (c' : Config), Step c evs c' →
        c.unregistering = true → c'.unregistering = true) := by
  refine ⟨?_, ?_, ?_, ?_⟩
  · intro tr c h hq hw
    have h' := aen_accounting initSess tr c h
    have h0 : inFlight initSess = [] := rfl
    have hc : inFlight c = [] := by simp [inFlight, hq, hw]
    rw [h0, hc, List.append_nil, List.nil_append] at h'
    exact h'
  · intro c evs c' h hu a
    cases h <;> simp_all
  · intro c evs c' a h hmem
    cases h <;> simp_all
  · intro c evs c' h hu
    cases h <;> simp_all

/-- Witness for C1: a concrete complete execution — one AEN is reported,
dispatched with its rescan, and acknowledged — in which the acknowledged
items equal the enqueued items. -/
theorem c1_aen_ack_exactly_once_witness :
    ackedIds [Ev.enq 1, Ev.pop 1 false, Ev.rescan 1, Ev.ack 1]
      = enqueuedIds [Ev.enq 1, Ev.pop 1 false, Ev.rescan 1, Ev.ack 1] := by
  have r1 := Reaches.step _ _ _ _ _ (Reaches.refl initSess)
    (Step.report initSess 1 rfl)
  have r2 := Reaches.step _ _ _ _ _ r1 (Step.popNormal _ 1 [] rfl rfl rfl)
  have r3 := Reaches.step _ _ _ _ _ r2 (Step.finishNormalHost _ 1 rfl rfl)
  have hr : Reaches initSess
      [Ev.enq 1, Ev.pop 1 false, Ev.rescan 1, Ev.ack 1]
      ⟨false, [], none, false, true⟩ := r3
  exact c1_aen_ack_exactly_once.1 _ _ hr rfl rfl

/-- Counterexample to C1 as stated: the execution in which an AEN is
reported, the dispatcher pops it (dropping `aen_lock`), the session close
then sets the latch, and the dispatcher still performs the rescan — so a
rescan side effect occurs after the unregistering latch has been set. -/
theorem c1_counterexample : ¬ c1Statement := by
  intro h
  have r1 := Reaches.step _ _ _ _ _ (Reaches.refl initSess)
    (Step.report initSess 1 rfl)
  have r2 := Reaches.step _ _ _ _ _ r1 (Step.popNormal _ 1 [] rfl rfl rfl)
  have r3 := Reaches.step _ _ _ _ _ r2 (Step.close _)
  have r4 := Reaches.step _ _ _ _ _ r3 (Step.finishNormalHost _ 1 rfl rfl)
  have hr : Reaches initSess
      [Ev.enq 1, Ev.pop 1 false, Ev.latch, Ev.rescan 1, Ev.ack 1]
      ⟨true, [], none, false, true⟩ := r4
  have hno := h.2 _ _ hr
  exact absurd hno (by decide)

/-- C6. Per-session AEN delivery is strictly FIFO: along any execution the
enqueued items are exactly the acknowledged ones followed by the items
still inside the subsystem, so the acknowledgment order is a prefix of the
enqueue order — position by position, the i-th acknowledged item is the
i-th enqueued item. -/
theorem c6_aen_fifo :
    ∀ (tr : List Ev) (c : Config), Reaches initSess tr c →
      enqueuedIds tr = ackedIds tr ++ inFlight c
      ∧ ∀ i : Nat, i < (ackedIds tr).length →
          (enqueuedIds tr)[i]? = (ackedIds tr)[i]? := by
  intro tr c h
  have h' := aen_accounting initSess tr c h
  have h0 : inFlight initSess = [] := rfl
  rw [h0, List.nil_append] at h'
  refine ⟨h'.symm, ?_⟩
  intro i hi
  rw [← h']
  exact List.getElem?_append_left hi

/-- Witness for C6: a concrete execution that reports AENs 1 then 2 and
drains both; the enqueue order equals the acknowledgment order. -/
theorem c6_aen_fifo_witness :
    enqueuedIds [Ev.enq 1, Ev.enq 2, Ev.pop 1 false, Ev.rescan 1, Ev.ack 1,
        Ev.pop 2 false, Ev.rescan 2, Ev.ack 2]
      = ackedIds [Ev.enq 1, Ev.enq 2, Ev.pop 1 false, Ev.rescan 1, Ev.ack 1,
          Ev.pop 2 false, Ev.rescan 2, Ev.ack 2]
        ++ inFlight ⟨false, [], none, false, true⟩ := by
  have r1 := Reaches.step _ _ _ _ _ (Reaches.refl initSess)
    (Step.report initSess 1 rfl)
  have r2 := Reaches.step _ _ _ _ _ r1 (Step.report _ 2 rfl)
  have r3 := Reaches.step _ _ _ _ _ r2 (Step.popNormal _ 1 [2] rfl rfl rfl)
  have r4 := Reaches.step _ _ _ _ _ r3 (Step.finishNormalHost _ 1 rfl rfl)
  have r5 := Reaches.step _ _ _ _ _ r4 (Step.popNormal _ 2 [] rfl rfl rfl)
  have r6 := Reaches.step _ _ _ _ _ r5 (Step.finishNormalHost _ 2 rfl rfl)
  have hr : Reaches initSess
      [Ev.enq 1, Ev.enq 2, Ev.pop 1 false, Ev.rescan 1, Ev.ack 1,
        Ev.pop 2 false, Ev.rescan 2, Ev.ack 2]
      ⟨false, [], none, false, true⟩ := r6
  exact (c6_aen_fifo _ _ hr).1

/-- On a session whose latch is already set, any further sequence of close
calls performs no removal at all. -/
theorem closeRemovalCount_latched (l : List Bool) :
    ∀ c : Config, c.unregistering = true → closeRemovalCount c l = 0 := by
  induction l with
  | nil => intro c hc; rfl
  | cons a rest ih =>
      intro c hc
      simp only [closeRemovalCount, scst_local_close_session_impl, hc,
        if_true]
      simpa using ih _ rfl

/-- C2. Closing a session is idempotent: the first close call on a session
with the latch clear sets the latch and performs (inline) or schedules (via
the removal worker) the destructive removal; every close call on a session
with the latch set observes it and does nothing; hence any sequence of
close calls starting from a clear latch performs the removal exactly
once. -/
theorem c2_close_session_idempotent :
    ∀ (c : Config) (async : Bool) (rest : List Bool),
      c.unregistering = false →
      ((scst_local_close_session_impl async c).2
          = (if async then RemoveAction.scheduledRemoval
             else RemoveAction.inlineRemoval)
        ∧ (scst_local_close_session_impl async c).1.unregistering = true)
      ∧ (∀ (b : Bool) (c' : Config), c'.unregistering = true →
          (scst_local_close_session_impl b c').2 = RemoveAction.noAction
          ∧ (scst_local_close_session_impl b c').1.unregistering = true)
      ∧ closeRemovalCount c (async :: rest) = 1 := by
  intro c async rest hc
  refine ⟨⟨?_, ?_⟩, ?_, ?_⟩
  · simp [scst_local_close_session_impl, hc]
  · simp [scst_local_close_session_impl, hc]
  · intro b c' hc'
    simp [scst_local_close_session_impl, hc']
  · have h0 := closeRemovalCount_latched rest { c with unregistering := true }
      rfl
    simp only [closeRemovalCount, scst_local_close_session_impl, hc,
      if_false, Bool.false_eq_true]
    cases async <;> simp_all

/-- Witness for C2: three successive close calls (async, sync, async) on a
fresh session perform exactly one removal. -/
theorem c2_close_session_idempotent_witness :
    closeRemovalCount initSess [true, false, true] = 1 :=
  (c2_close_session_idempotent initSess true [false, true] rfl).2.2

/-- C3. A command submitted to a session whose unregistering latch is set
never reaches the engine: `scst_rx_cmd` is not called, the command is not
handed to the engine, its result is set to `DID_BAD_TARGET << 16`, the
initiator-side completion is invoked immediately, and 0 (success) is
returned to the caller. -/
theorem c3_queuecommand_unregistering_rejected :
    ∀ i : QCInput, i.unregistering = true →
      (scst_local_queuecommand i).rx_cmd_called = false
      ∧ (scst_local_queuecommand i).engine_owns = false
      ∧ (scst_local_queuecommand i).result = DID_BAD_TARGET <<< 16
      ∧ (scst_local_queuecommand i).done_called = true
      ∧ (scst_local_queuecommand i).retval = 0 := by
  intro i hi
  simp [scst_local_queuecommand, hi]

/-- Witness for C3: a concrete read command on an unregistering session is
rejected without reaching the engine. -/
theorem c3_queuecommand_unregistering_rejected_witness :
    (scst_local_queuecommand
        ⟨true, true, true, true, HostDataDir.fromDevice, 512⟩).rx_cmd_called
        = false
    ∧ (scst_local_queuecommand
        ⟨true, true, true, true, HostDataDir.fromDevice, 512⟩).result
        = DID_BAD_TARGET <<< 16 := by
  have h := c3_queuecommand_unregistering_rejected
    ⟨true, true, true, true, HostDataDir.fromDevice, 512⟩ rfl
  exact ⟨h.1, h.2.2.1⟩

/-- C4. Each task-management entry point increments exactly its own
statistic counter, by exactly one, unconditionally (independently of the
submission result, hence of whether the engine found the addressed
command or device), always waits for the engine's completion, and returns
`SUCCESS` whenever the submission call returned zero. -/
theorem c4_tm_counter_and_success :
    ∀ (r : Int) (st : MgmtStats),
      ((scst_local_abort r st).2
          = { st with num_aborts := st.num_aborts + 1 }
        ∧ (scst_local_abort r st).1.waited = true
        ∧ (r = 0 → (scst_local_abort r st).1.ret = SUCCESS))
      ∧ ((scst_local_device_reset r st).2
          = { st with num_dev_resets := st.num_dev_resets + 1 }
        ∧ (scst_local_device_reset r st).1.waited = true
        ∧ (r = 0 → (scst_local_device_reset r st).1.ret = SUCCESS))
      ∧ ((scst_local_target_reset r st).2
          = { st with num_target_resets := st.num_target_resets + 1 }
        ∧ (scst_local_target_reset r st).1.waited = true
        ∧ (r = 0 → (scst_local_target_reset r st).1.ret = SUCCESS)) := by
  intro r st
  refine ⟨⟨rfl, rfl, ?_⟩, ⟨rfl, rfl, ?_⟩, ⟨rfl, rfl, ?_⟩⟩ <;>
    intro h0 <;>
    simp [scst_local_abort, scst_local_device_reset,
      scst_local_target_reset, h0]

/-- Witness for C4: an abort whose submission succeeded returns `SUCCESS`
and bumps `num_aborts` from 0 to 1. -/
theorem c4_tm_counter_and_success_witness :
    (scst_local_abort 0 ⟨0, 0, 0⟩).1.ret = SUCCESS
    ∧ (scst_local_abort 0 ⟨0, 0, 0⟩).2.num_aborts = 1 := by
  have h := c4_tm_counter_and_success 0 ⟨0, 0, 0⟩
  exact ⟨h.1.2.2 rfl, by rw [h.1.1]⟩

/-- C5 (amended). A non-zero submission error from the engine is surfaced to
the caller unchanged by each task-management entry point — but only after
the (interruptible) wait on the completion signal: the source waits
unconditionally, even when the submission call failed, so the error is not
surfaced without blocking on the completion. -/
theorem c5_submit_error_surfaced_after_wait :
    ∀ (r : Int) (st : MgmtStats), r ≠ 0 →
      ((scst_local_abort r st).1.ret = r
        ∧ (scst_local_abort r st).1.waited = true)
      ∧ ((scst_local_device_reset r st).1.ret = r
        ∧ (scst_local_device_reset r st).1.waited = true)
      ∧ ((scst_local_target_reset r st).1.ret = r
        ∧ (scst_local_target_reset r st).1.waited = true) := by
  intro r st hr
  refine ⟨⟨?_, rfl⟩, ⟨?_, rfl⟩, ⟨?_, rfl⟩⟩ <;>
    simp [scst_local_abort, scst_local_device_reset,
      scst_local_target_reset, hr]

/-- Witness for C5 (amended): a failed abort submission (`-EINVAL`) returns
that error, after waiting on the completion. -/
theorem c5_submit_error_surfaced_after_wait_witness :
    (scst_local_abort (-22) ⟨0, 0, 0⟩).1.ret = -22
    ∧ (scst_local_abort (-22) ⟨0, 0, 0⟩).1.waited = true :=
  (c5_submit_error_surfaced_after_wait (-22) ⟨0, 0, 0⟩ (by decide)).1

/-- Counterexample to C5 as stated: with a failed submission (`-EINVAL`) the
abort entry point still blocks on the completion signal
(`wait_for_completion_interruptible` is invoked unconditionally), so the
error is not surfaced without waiting. -/
theorem c5_counterexample : ¬ c5Statement := by
  intro h
  have hw := ((h (-22) ⟨0, 0, 0⟩ (by decide)).1).2
  exact absurd hw (by decide)

/-- C7 (amended). When the work-item allocation succeeds, the AEN report
operation returns `NotSupported` with the session unchanged and no work
scheduled in exactly two cases — the latch is set, or the event kind is not
`SCST_AEN_SCSI` — and otherwise enqueues the item at the tail, schedules
the worker and returns 0. When the allocation fails (for the SCSI kind),
the operation instead returns `-ENOMEM`, also without enqueuing or
scheduling anything. -/
theorem c7_report_aen_cases :
    ∀ (fn : AenEventFn) (a : Nat) (c : Config),
      (((scst_local_report_aen fn true a c).1 = SCST_AEN_RES_NOT_SUPPORTED
          ∧ (scst_local_report_aen fn true a c).2.1 = c
          ∧ (scst_local_report_aen fn true a c).2.2 = false)
        ↔ (c.unregistering = true ∨ fn ≠ AenEventFn.scsi))
      ∧ (c.unregistering = false → fn = AenEventFn.scsi →
          scst_local_report_aen fn true a c
            = (0, { c with aen_work_list := c.aen_work_list ++ [a] }, true))
      ∧ (scst_local_report_aen AenEventFn.scsi false a c
          = (-ENOMEM, c, false)) := by
  intro fn a c
  rcases fn <;> rcases hc : c.unregistering <;>
    simp [scst_local_report_aen, hc, SCST_AEN_RES_NOT_SUPPORTED, ENOMEM]

/-- Witness for C7 (amended): reporting a SCSI AEN on a fresh session
enqueues it and schedules the worker. -/
theorem c7_report_aen_cases_witness :
    scst_local_report_aen AenEventFn.scsi true 7 initSess
      = (0, { initSess with
          aen_work_list := initSess.aen_work_list ++ [7] }, true) :=
  (c7_report_aen_cases AenEventFn.scsi 7 initSess).2.1 rfl rfl

/-- Counterexample to C7 as stated: with the work-item allocation failing,
a SCSI AEN reported to a live session is neither rejected as `NotSupported`
nor enqueued with success — the operation returns `-ENOMEM`, a third case
the claim does not admit. -/
theorem c7_counterexample : ¬ c7Statement := by
  intro h
  have h2 := (h AenEventFn.scsi false 7 initSess).2 rfl rfl
  exact absurd h2.1 (by decide)

/-- C8 (amended). Every administrative entry point (add-target,
remove-target, and the mgmt command handling add-session/remove-session)
first tries the exit gate as a reader and, while the shutdown writer holds
it, fails immediately with the shutting-down error (`-ENOENT`) and leaves
the state unchanged. Shutdown itself (`scst_local_exit`) empties the
registry; however it releases the writer before returning, so after
shutdown has returned, the trylock gate alone no longer rejects new
administrative calls (in the real system none can occur, the module being
unloaded). -/
theorem c8_exit_barrier :
    (∀ (aOk rOk adOk : Bool) (name : String) (snames : List String)
        (g : GlobalState), g.writerHeld = true →
        scst_local_sysfs_add_target aOk rOk adOk name snames g
          = (-ENOENT, g))
    ∧ (∀ (name : String) (g : GlobalState), g.writerHeld = true →
        scst_local_sysfs_del_target name g = (-ENOENT, g))
    ∧ (∀ (adOk : Bool) (cmd tname sname : String) (g : GlobalState),
        g.writerHeld = true →
        scst_local_sysfs_mgmt_cmd adOk cmd tname sname g = (-ENOENT, g))
    ∧ (∀ g : GlobalState, (scst_local_exit g).tgts = []
        ∧ (scst_local_exit g).writerHeld = false) := by
  refine ⟨?_, ?_, ?_, ?_⟩
  · intro aOk rOk adOk name snames g hg
    simp [scst_local_sysfs_add_target, hg]
  · intro name g hg
    simp [scst_local_sysfs_del_target, hg]
  · intro adOk cmd tname sname g hg
    simp [scst_local_sysfs_mgmt_cmd, hg]
  · intro g
    exact ⟨rfl, rfl⟩

/-- Witness for C8 (amended): with the shutdown writer held, a concrete
add-target call fails with `-ENOENT` and changes nothing; and shutdown on a
registry with one target leaves it empty. -/
theorem c8_exit_barrier_witness :
    scst_local_sysfs_add_target true true true "tgt" [] ⟨true, []⟩
        = (-ENOENT, ⟨true, []⟩)
    ∧ (scst_local_exit ⟨false, [⟨"tgt", []⟩]⟩).tgts = [] :=
  ⟨c8_exit_barrier.1 true true true "tgt" [] ⟨true, []⟩ rfl,
   (c8_exit_barrier.2.2.2 ⟨false, [⟨"tgt", []⟩]⟩).1⟩

/-- Counterexample to C8 as stated: after `scst_local_exit` has returned the
exit writer has been released (`up_write` runs before the function
returns), so a subsequent add-target call passes the trylock gate and
succeeds (returns 0) instead of failing with the shutting-down error. -/
theorem c8_counterexample : ¬ c8Statement := by
  intro h
  have hA := (h.2.2.2 ⟨false, []⟩).2.1 true true true "tgt" []
  exact absurd hA (by decide)

/-- C9 (amended). The scsi-transport-version getter reports the stored value
when it is non-zero and falls back to the hard-coded SAS constant 0x0BE0
when the stored field is zero; the phys-transport-version getter performs
no such fallback — when its stored field is zero it reports 0, the unset
sentinel itself. -/
theorem c9_transport_version_fallback :
    (∀ t : TgtVersions, t.scsi_transport_version ≠ 0 →
        scst_local_get_scsi_transport_version t = t.scsi_transport_version)
    ∧ (∀ t : TgtVersions, t.scsi_transport_version = 0 →
        scst_local_get_scsi_transport_version t = 0x0BE0)
    ∧ (∀ t : TgtVersions, t.phys_transport_version = 0 →
        scst_local_get_phys_transport_version t = 0) := by
  refine ⟨?_, ?_, ?_⟩ <;> intro t ht <;>
    simp [scst_local_get_scsi_transport_version,
      scst_local_get_phys_transport_version, ht]

/-- Witness for C9 (amended): on a target with both fields unset, the scsi
getter reports 0x0BE0 and the phys getter reports 0. -/
theorem c9_transport_version_fallback_witness :
    scst_local_get_scsi_transport_version ⟨0, 0⟩ = 0x0BE0
    ∧ scst_local_get_phys_transport_version ⟨0, 0⟩ = 0 :=
  ⟨c9_transport_version_fallback.2.1 ⟨0, 0⟩ rfl,
   c9_transport_version_fallback.2.2 ⟨0, 0⟩ rfl⟩

/-- Counterexample to C9 as stated: there is no non-zero built-in default
for the phys transport version — on a target whose stored field is zero the
getter returns 0, so no constant distinct from the unset sentinel is ever
substituted. -/
theorem c9_counterexample : ¬ c9Statement := by
  intro h
  obtain ⟨cst, hne, hall⟩ := h.2
  have h0 := hall ⟨0, 0⟩ rfl
  exact hne (by simpa [scst_local_get_phys_transport_version] using h0.symm)

/-- C10. The administrative mgmt command with a command word that is neither
`add_session` nor `del_session` (case-insensitively), an existing target
and a non-empty session name returns 0 and changes no state: the unknown
command word falls through both comparisons and is silently accepted. -/
theorem c10_unknown_mgmt_cmd_accepted :
    ∀ (adOk : Bool) (cmd tname sname : String) (g : GlobalState),
      g.writerHeld = false → tname ≠ "" →
      (findTgtByName g.tgts tname).isSome = true → sname ≠ "" →
      eqIgnoreCase "add_session" cmd = false →
      eqIgnoreCase "del_session" cmd = false →
      scst_local_sysfs_mgmt_cmd adOk cmd tname sname g = (0, g) := by
  intro adOk cmd tname sname g hw ht hf hs h1 h2
  obtain ⟨t, htf⟩ := Option.isSome_iff_exists.mp hf
  simp [scst_local_sysfs_mgmt_cmd, hw, ht, htf, hs, h1, h2]

/-- Witness for C10: the unknown command word `list_luns` against an
existing target and a non-empty session name returns 0 and leaves the
registry unchanged. -/
theorem c10_unknown_mgmt_cmd_accepted_witness :
    scst_local_sysfs_mgmt_cmd true "list_luns" "tgt0" "sess0"
        ⟨false, [⟨"tgt0", []⟩]⟩ = (0, ⟨false, [⟨"tgt0", []⟩]⟩) :=
  c10_unknown_mgmt_cmd_accepted true "list_luns" "tgt0" "sess0"
    ⟨false, [⟨"tgt0", []⟩]⟩ rfl (by decide) (by decide) (by decide)
    (by decide) (by decide)

end ScstLocal
